import Mathlib

/-!
Shallow embedding of the core of the agent-rusty terminal dashboard:
the status-inference engine (src/tmux/heuristics.rs), the modal state
reducer (src/app.rs) and the tmux list-output parsing (src/tmux/client.rs),
together with theorems settling the specification claims about them.
-/

namespace AgentRusty

/-- Status of an AI agent session (src/tmux/heuristics.rs, `AgentStatus`).
`Unknown` is the `#[default]` variant. -/
inductive AgentStatus where
  | Busy
  | Idle
  | WaitingForInput
  | Error
  | Unknown
deriving DecidableEq, Repr

/-! ### String primitives

The Rust code matches compiled regexes with the `m` (multiline) and, for
three of the four patterns, `i` (case-insensitive) flags against a block
that is a `"\n"`-join of the last 20 lines of the snapshot.  Since lines
produced by `str::lines` never contain a newline, a multiline regex
matches the joined block iff one of its line-anchored alternatives
matches some single line, or one of its newline-free substring
alternatives occurs inside some single line.  The embedding therefore
represents each compiled regex directly as a per-line Boolean predicate
lifted over the window with `List.any`.  All string functions below are
structurally recursive so that concrete inputs evaluate inside the
kernel. -/

/-- Lower-cased character list of a string; models the `i` regex flag
(ASCII case folding, the fragment exercised by the patterns). -/
def lowerList (s : String) : List Char := s.toList.map Char.toLower

/-- substring occurrence test on character lists. -/
def isInfixB (pat hay : List Char) : Bool :=
  hay.tails.any (fun t => pat.isPrefixOf t)

/-- Case-insensitive substring test: regex alternative `pat` (given in
lower case) under flag `i`, matched anywhere in line `l`. -/
def containsCI (l pat : String) : Bool := isInfixB pat.toList (lowerList l)

/-- Case-sensitive substring test (regex alternative without `i`, and
Rust `str::contains`). -/
def containsCS (l pat : String) : Bool := isInfixB pat.toList l.toList

/-- Case-insensitive test that line `l` starts with `pat` (regex `^pat`
under flags `mi`, applied per line). -/
def startsWithCI (l pat : String) : Bool := pat.toList.isPrefixOf (lowerList l)

/-- Case-sensitive test that line `l` ends with `pat` (regex `pat$` under
flag `m`, applied per line). -/
def endsWithCS (l pat : String) : Bool := pat.toList.isSuffixOf l.toList

/-- Regex alternative `^\s*>\s*$` applied to one line. -/
def wsPromptLine (l : String) : Bool :=
  match l.toList.dropWhile Char.isWhitespace with
  | '>' :: rest => rest.all Char.isWhitespace
  | _ => false

/-- Regex alternative `^c\s*$` (prompt character `c` at line start,
followed only by whitespace) applied to one line. -/
def promptLine (c : Char) (l : String) : Bool :=
  match l.toList with
  | c0 :: rest => c0 = c && rest.all Char.isWhitespace
  | [] => false

/-- One line of `RE_ERROR`:
`(?mi)(^Error:|^error:|Exception|FAILED|panic|fatal|crash)`. -/
def errorLine (l : String) : Bool :=
  startsWithCI l "error:" || containsCI l "exception" || containsCI l "failed" ||
  containsCI l "panic" || containsCI l "fatal" || containsCI l "crash"

/-- One line of `RE_WAITING_INPUT`: `(?mi)` over the alternatives
blank `>` prompt, "Type a message", "Press Enter", "waiting for input",
question mark plus space at line end, and the y/n prompt markup
(whose bracketed and parenthesised forms each collapse under the `i`
flag to one case-insensitive literal). -/
def waitingLine (l : String) : Bool :=
  wsPromptLine l || containsCI l "type a message" || containsCI l "press enter" ||
  containsCI l "waiting for input" || endsWithCS l "? " ||
  containsCI l "[y/n]" || containsCI l "(y/n)"

/-- Spinner glyphs listed in `RE_BUSY`. -/
def spinnerGlyphs : List Char := ['⠋', '⠙', '⠹', '⠸', '⠼', '⠴', '⠦', '⠧', '⠇', '⠏']

/-- One line of `RE_BUSY`: `(?mi)` over "Thinking...", "Processing",
"Loading", "Working", the spinner glyphs, and three dots at line end. -/
def busyLine (l : String) : Bool :=
  containsCI l "thinking..." || containsCI l "processing" || containsCI l "loading" ||
  containsCI l "working" || l.toList.any (fun c => spinnerGlyphs.contains c) ||
  endsWithCS l "..."

/-- One line of `RE_IDLE` (case-sensitive, flag `m` only):
bare `$`, `❯` or `>` prompt lines, or the literal "claude>". -/
def idleLine (l : String) : Bool :=
  promptLine '$' l || promptLine '❯' l || promptLine '>' l || containsCS l "claude>"

/-- Match of `RE_ERROR` against the joined window. -/
def re_error_matches (w : List String) : Bool := w.any errorLine

/-- Match of `RE_WAITING_INPUT` against the joined window. -/
def re_waiting_input_matches (w : List String) : Bool := w.any waitingLine

/-- Match of `RE_BUSY` against the joined window. -/
def re_busy_matches (w : List String) : Bool := w.any busyLine

/-- Match of `RE_IDLE` against the joined window. -/
def re_idle_matches (w : List String) : Bool := w.any idleLine

/-- Last `n` lines in original order:
`content.lines().rev().take(n)` followed by the second `rev()`. -/
def lastLines (n : Nat) (ls : List String) : List String := (ls.reverse.take n).reverse

/-- Body of `StateInferenceEngine::analyze` after the `lines()` split:
window to the last 20 lines, then test the four regexes in the fixed
priority order Error, WaitingForInput, Busy, Idle, defaulting to
Unknown. -/
def analyzeLines (lines : List String) : AgentStatus :=
  let recent := lastLines 20 lines
  if re_error_matches recent then AgentStatus.Error
  else if re_waiting_input_matches recent then AgentStatus.WaitingForInput
  else if re_busy_matches recent then AgentStatus.Busy
  else if re_idle_matches recent then AgentStatus.Idle
  else AgentStatus.Unknown

/-- Splitting a character list at every occurrence of `sep`, keeping
empty segments; models Rust `str::split` with a char pattern (always at
least one segment). -/
def splitChar (sep : Char) : List Char → List (List Char)
  | [] => [[]]
  | c :: cs =>
    if c = sep then [] :: splitChar sep cs
    else
      match splitChar sep cs with
      | h :: t => (c :: h) :: t
      | [] => [[c]]

/-- Rust `str::split` with a char pattern, producing strings. -/
def rustSplit (sep : Char) (s : String) : List String :=
  (splitChar sep s.toList).map (fun cs => String.mk cs)

/-- Dropping one trailing carriage return, for `\r\n` line endings. -/
def stripCR (cs : List Char) : List Char :=
  if cs.getLast? = some '\r' then cs.dropLast else cs

/-- Rust `str::lines`: split at `\n`, strip a `\r` left at the end of
each newline-terminated segment, and produce no final empty line for a
trailing newline (a non-empty final segment without a newline is kept
verbatim). -/
def rustLines (s : String) : List String :=
  let parts := splitChar '\n' s.toList
  let kept :=
    match parts.getLast? with
    | some [] => parts.dropLast.map stripCR
    | some l => parts.dropLast.map stripCR ++ [l]
    | none => []
  kept.map (fun cs => String.mk cs)

/-- `StateInferenceEngine::analyze` on the raw pane content. -/
def analyze (content : String) : AgentStatus := analyzeLines (rustLines content)

/-- Priority rank of a status in the order used by `analyze`:
Error over WaitingForInput over Busy over Idle over Unknown. -/
def statusPrio : AgentStatus → Nat
  | AgentStatus.Unknown => 0
  | AgentStatus.Idle => 1
  | AgentStatus.Busy => 2
  | AgentStatus.WaitingForInput => 3
  | AgentStatus.Error => 4

/-- Whether the window contains a marker of the given classifier class. -/
def classMarkers (w : List String) : AgentStatus → Bool
  | AgentStatus.Error => re_error_matches w
  | AgentStatus.WaitingForInput => re_waiting_input_matches w
  | AgentStatus.Busy => re_busy_matches w
  | AgentStatus.Idle => re_idle_matches w
  | AgentStatus.Unknown => false

/-! ### Application state (src/app.rs, src/actions.rs, src/tmux/mod.rs)

`Theme` and the `render_*` methods are pure drawing and are not part of
the reducer state the claims are about; they are omitted.  `ListState`
contributes exactly its `selected()` cell, modelled as `Option Nat`. -/

/-- Representation of a tmux session (src/tmux/mod.rs, `TmuxSession`).
`created_at : u64` and `attached_clients : usize` are modelled as `Nat`;
the parser below enforces the 64-bit bound of the source types. -/
structure TmuxSession where
  id : String
  name : String
  created_at : Nat
  attached_clients : Nat
  status : AgentStatus
deriving DecidableEq, Repr

/-- Key codes handled by src/app.rs (crossterm `KeyCode`); `Other`
stands for every further variant, all of which fall into the catch-all
match arms. -/
inductive KeyCode where
  | Char (c : Char)
  | Enter
  | Esc
  | Backspace
  | Down
  | Up
  | Other
deriving DecidableEq, Repr

/-- Key event: code plus whether `modifiers` contains `CONTROL`. -/
structure KeyEvent where
  code : KeyCode
  ctrl : Bool
deriving DecidableEq, Repr

/-- Input mode of the application (src/app.rs, `InputMode`). -/
inductive InputMode where
  | Normal
  | Creating
  | Confirming
deriving DecidableEq, Repr

/-- Actions dispatched through the application (src/actions.rs). -/
inductive Action where
  | KeyPress (k : KeyEvent)
  | SessionsUpdated (sessions : List TmuxSession)
  | Error (msg : String)
  | Quit
  | AttachSession (id : String)
  | CreateSession (name : String)
  | DeleteSession (id : String)
  | ToggleMcpMode
  | CopySkeleton
deriving DecidableEq, Repr

/-- Main application state (src/app.rs, `App`), without the
render-only `Theme`.  `cursor` is `list_state.selected()`. -/
structure AppState where
  sessions : List TmuxSession
  cursor : Option Nat
  error_message : Option String
  mcp_mode : Bool
  input_mode : InputMode
  input_buffer : String
  pending_actions : List Action
deriving DecidableEq, Repr

/-- `App::new`: empty session list with the list cursor selecting
index 0. -/
def App_new : AppState :=
  { sessions := []
    cursor := some 0
    error_message := none
    mcp_mode := false
    input_mode := InputMode.Normal
    input_buffer := ""
    pending_actions := [] }

/-- `App::selected_session`: checked indexing of the registry at the
cursor. -/
def selected_session (st : AppState) : Option TmuxSession :=
  st.cursor.bind (fun i => st.sessions.get? i)

/-- Appending one pending action (`self.pending_actions.push(...)`). -/
def push_action (st : AppState) (a : Action) : AppState :=
  { st with pending_actions := st.pending_actions ++ [a] }

/-- `App::next_session`: wraparound downward cursor move. -/
def next_session (st : AppState) : AppState :=
  if st.sessions.isEmpty then st
  else
    let i :=
      match st.cursor with
      | some i => if i ≥ st.sessions.length - 1 then 0 else i + 1
      | none => 0
    { st with cursor := some i }

/-- `App::previous_session`: wraparound upward cursor move. -/
def previous_session (st : AppState) : AppState :=
  if st.sessions.isEmpty then st
  else
    let i :=
      match st.cursor with
      | some i => if i = 0 then st.sessions.length - 1 else i - 1
      | none => 0
    { st with cursor := some i }

/-- Rust `char::is_alphanumeric`, modelled exactly on the ASCII
fragment.  The source predicate is Unicode (the Alphabetic property
together with the Nd, Nl and No number categories), whose truth table
is external Unicode data not reproduced in this embedding; on
characters with code point below 128 this definition agrees with the
source predicate character for character, and outside that fragment it
under-approximates it (it rejects non-ASCII letters and digits that
the source accepts).  Every theorem that characterizes the
Creating-mode filter per character therefore carries an explicit
ASCII hypothesis and asserts nothing about non-ASCII input. -/
def char_is_alphanumeric (c : Char) : Bool := c.isAlphanum

/-- Rust `String::pop`: drop the last character. -/
def strPop (s : String) : String := String.mk s.toList.dropLast

/-- `App::handle_normal_key`.  The Rust match arms are mutually
exclusive, so the `Char` arms are rendered as a cascade; the guarded
arm `Char c with CONTROL` keeps its guard. -/
def handle_normal_key (st : AppState) (k : KeyEvent) : AppState × Bool :=
  match k.code with
  | KeyCode.Char c =>
    if c = 'q' then (st, true)
    else if c = 'j' then (next_session st, false)
    else if c = 'k' then (previous_session st, false)
    else if c = 'M' then ({ st with mcp_mode := !st.mcp_mode }, false)
    else if c = 'n' then ({ st with input_mode := InputMode.Creating, input_buffer := "" }, false)
    else if c = 'd' then
      if (selected_session st).isSome then ({ st with input_mode := InputMode.Confirming }, false)
      else (st, false)
    else if c = 'y' then (push_action st Action.CopySkeleton, false)
    else if c = 'c' then (if k.ctrl then (st, true) else (st, false))
    else (st, false)
  | KeyCode.Down => (next_session st, false)
  | KeyCode.Up => (previous_session st, false)
  | KeyCode.Enter =>
    match selected_session st with
    | some s => (push_action st (Action.AttachSession s.id), false)
    | none => (st, false)
  | _ => (st, false)

/-- `App::handle_creating_key`. -/
def handle_creating_key (st : AppState) (k : KeyEvent) : AppState × Bool :=
  match k.code with
  | KeyCode.Enter =>
    let st :=
      if st.input_buffer = "" then st
      else { push_action st (Action.CreateSession st.input_buffer) with input_buffer := "" }
    ({ st with input_mode := InputMode.Normal }, false)
  | KeyCode.Esc =>
    ({ st with input_buffer := "", input_mode := InputMode.Normal }, false)
  | KeyCode.Char c =>
    if char_is_alphanumeric c || c = '-' || c = '_' then
      ({ st with input_buffer := st.input_buffer.push c }, false)
    else (st, false)
  | KeyCode.Backspace =>
    ({ st with input_buffer := strPop st.input_buffer }, false)
  | _ => (st, false)

/-- `App::handle_confirming_key`. -/
def handle_confirming_key (st : AppState) (k : KeyEvent) : AppState × Bool :=
  match k.code with
  | KeyCode.Char c =>
    if c = 'y' ∨ c = 'Y' then
      let st :=
        match selected_session st with
        | some s => push_action st (Action.DeleteSession s.id)
        | none => st
      ({ st with input_mode := InputMode.Normal }, false)
    else if c = 'n' ∨ c = 'N' then ({ st with input_mode := InputMode.Normal }, false)
    else (st, false)
  | KeyCode.Esc => ({ st with input_mode := InputMode.Normal }, false)
  | _ => (st, false)

/-- `App::handle_key`: clear a displayed message on any key press in
Normal mode, then dispatch on the input mode. -/
def handle_key (st : AppState) (k : KeyEvent) : AppState × Bool :=
  let st :=
    if st.error_message ≠ none ∧ st.input_mode = InputMode.Normal then
      { st with error_message := none }
    else st
  match st.input_mode with
  | InputMode.Normal => handle_normal_key st k
  | InputMode.Creating => handle_creating_key st k
  | InputMode.Confirming => handle_confirming_key st k

/-- `App::handle_action`; the returned Bool is the quit flag of the
`Result<bool>` (the Rust function never returns `Err`). -/
def handle_action (st : AppState) (a : Action) : AppState × Bool :=
  match a with
  | Action.KeyPress k => handle_key st k
  | Action.SessionsUpdated sessions =>
    let st := { st with sessions := sessions }
    let st :=
      match st.cursor with
      | some selected =>
        if selected ≥ st.sessions.length ∧ ¬st.sessions.isEmpty then
          { st with cursor := some (st.sessions.length - 1) }
        else st
      | none => st
    (st, false)
  | Action.Error msg => ({ st with error_message := some msg }, false)
  | Action.Quit => (st, true)
  | _ => (st, false)

/-! ### Tmux list-output parsing (src/tmux/client.rs)

`list_sessions` and `parse_session_line` run the external tmux binary;
the embedding abstracts one finished `Output` of the list command as an
exit-success flag plus the stdout and stderr text, and abstracts the
per-session `get_session_status(&id).await.unwrap_or(Unknown)` capture
as a total function `statusOf` from the session id to the already
defaulted status. -/

/-- Rust `str::parse::<u64>` (and `<usize>` on a 64-bit target):
optional leading plus sign, at least one ASCII digit, no other
characters, value within 64 bits; anything else is a parse error. -/
def rustParseU64 (s : String) : Option Nat :=
  let ds := match s.toList with
    | '+' :: rest => rest
    | cs => cs
  if ds.isEmpty then none
  else if ds.all Char.isDigit then
    let v := ds.foldl (fun a c => a * 10 + (c.toNat - 48)) 0
    if v < 2 ^ 64 then some v else none
  else none

/-- `TmuxClient::parse_session_line`: split the record at pipes, drop
it when fewer than 4 fields remain, default unparsable numeric fields
to 0, and attach the captured status. -/
def parse_session_line (statusOf : String → AgentStatus) (line : String) : Option TmuxSession :=
  match rustSplit '|' line with
  | p0 :: p1 :: p2 :: p3 :: _ =>
    some { id := p0
           name := p1
           created_at := (rustParseU64 p2).getD 0
           attached_clients := (rustParseU64 p3).getD 0
           status := statusOf p0 }
  | _ => none

/-- `TmuxClient::list_sessions` on one finished list-command output:
a non-zero exit whose stderr mentions a missing server or missing
sessions is an empty list; any other non-zero exit is an error carrying
the stderr text; on success every stdout line that parses contributes a
session. -/
def list_sessions (statusOf : String → AgentStatus) (exitSuccess : Bool)
    (stdout stderr : String) : Except String (List TmuxSession) :=
  if exitSuccess = false then
    if containsCS stderr "no server running" || containsCS stderr "no sessions" then
      Except.ok []
    else
      Except.error ("tmux list-sessions failed: " ++ stderr)
  else
    Except.ok ((rustLines stdout).filterMap (parse_session_line statusOf))

/-- Sample session value for concrete instantiations. -/
def sampleSession : TmuxSession :=
  { id := "$0", name := "agent", created_at := 0, attached_clients := 0,
    status := AgentStatus.Unknown }

/-- Unit test `test_detect_waiting_for_input` of heuristics.rs, replayed
on the embedding. -/
theorem analyze_unit_waiting :
    analyze "Some output\n\n> " = AgentStatus.WaitingForInput ∧
    analyze "Do you want to continue? [y/n]" = AgentStatus.WaitingForInput := by
  decide

/-- Unit tests `test_detect_busy`, `test_detect_error` and
`test_detect_idle` of heuristics.rs, replayed on the embedding. -/
theorem analyze_unit_busy_error_idle :
    analyze "Working on the task...\nThinking..." = AgentStatus.Busy ∧
    analyze "Something went wrong\nError: connection refused" = AgentStatus.Error ∧
    analyze "Previous output\n$ " = AgentStatus.Idle := by
  decide

/-- Feeding a sequence of plain character key presses through the key
handler. -/
def feed_keys (st : AppState) (cs : List Char) : AppState :=
  cs.foldl (fun s c => (handle_key s { code := KeyCode.Char c, ctrl := false }).1) st

/-- C4: analyze depends only on the last 20 lines of its input; for
every snapshot of at least 20 lines and every sequence of lines
prepended before that window, the classification is unchanged. -/
theorem C4_window_bound (pre ls : List String) (h : 20 ≤ ls.length) :
    analyzeLines (pre ++ ls) = analyzeLines ls := by
  have hw : lastLines 20 (pre ++ ls) = lastLines 20 ls := by
    unfold lastLines
    rw [List.reverse_append, List.take_append_of_le_length (by simpa using h)]
  simp only [analyzeLines, hw]

/-- Witness for C4: an error line prepended in front of a 20-line
snapshot does not change the classification. -/
theorem C4_window_bound_witness :
    20 ≤ (List.replicate 20 "ok").length ∧
    analyzeLines (["Error: outside the window"] ++ List.replicate 20 "ok") =
      analyzeLines (List.replicate 20 "ok") :=
  ⟨by decide, C4_window_bound ["Error: outside the window"] (List.replicate 20 "ok") (by decide)⟩

/-- C5: cursor navigation wraps around; a down move (j or Down) from
the last index goes to index 0, an up move (k or Up) from index 0 goes
to the last index, and both moves leave an empty-registry state
unchanged. -/
theorem C5_wraparound (st : AppState) :
    (st.sessions ≠ [] → st.cursor = some (st.sessions.length - 1) →
      (next_session st).cursor = some 0) ∧
    (st.sessions ≠ [] → st.cursor = some 0 →
      (previous_session st).cursor = some (st.sessions.length - 1)) ∧
    (st.sessions = [] → next_session st = st ∧ previous_session st = st) ∧
    (∀ b : Bool,
      handle_normal_key st { code := KeyCode.Char 'j', ctrl := b } = (next_session st, false) ∧
      handle_normal_key st { code := KeyCode.Down, ctrl := b } = (next_session st, false) ∧
      handle_normal_key st { code := KeyCode.Char 'k', ctrl := b } = (previous_session st, false) ∧
      handle_normal_key st { code := KeyCode.Up, ctrl := b } = (previous_session st, false)) := by
  refine ⟨?_, ?_, ?_, ?_⟩
  · intro hne hc
    simp [next_session, List.isEmpty_iff, hne, hc]
  · intro hne hc
    simp [previous_session, List.isEmpty_iff, hne, hc]
  · intro hnil
    constructor <;> simp [next_session, previous_session, hnil]
  · intro b
    refine ⟨?_, rfl, ?_, rfl⟩ <;> simp [handle_normal_key]

/-- Witness for C5 at a three-session registry with the cursor on the
last index, and at the empty initial state. -/
theorem C5_wraparound_witness :
    (next_session { App_new with
        sessions := [sampleSession, sampleSession, sampleSession],
        cursor := some 2 }).cursor = some 0 ∧
    (previous_session { App_new with
        sessions := [sampleSession, sampleSession, sampleSession] }).cursor = some 2 ∧
    next_session App_new = App_new := by
  refine ⟨?_, ?_, ?_⟩
  · exact (C5_wraparound { App_new with
      sessions := [sampleSession, sampleSession, sampleSession],
      cursor := some 2 }).1 (by decide) (by decide)
  · exact (C5_wraparound { App_new with
      sessions := [sampleSession, sampleSession, sampleSession] }).2.1 (by decide) (by decide)
  · exact ((C5_wraparound App_new).2.2.1 rfl).1

/-- C6: in Normal mode, pressing d transitions to Confirming exactly
when a session is selected (otherwise the mode stays Normal), and the
key press never enqueues a pending command by itself. -/
theorem C6_modal_gating (st : AppState) (b : Bool) (hmode : st.input_mode = InputMode.Normal) :
    (handle_key st { code := KeyCode.Char 'd', ctrl := b }).1.input_mode =
      (if (selected_session st).isSome then InputMode.Confirming else InputMode.Normal) ∧
    (handle_key st { code := KeyCode.Char 'd', ctrl := b }).1.pending_actions =
      st.pending_actions := by
  have hgoal : ∀ s : AppState, s.input_mode = InputMode.Normal →
      selected_session s = selected_session st →
      s.pending_actions = st.pending_actions →
      ((handle_normal_key s { code := KeyCode.Char 'd', ctrl := b }).1.input_mode =
        (if (selected_session st).isSome then InputMode.Confirming else InputMode.Normal) ∧
       (handle_normal_key s { code := KeyCode.Char 'd', ctrl := b }).1.pending_actions =
        st.pending_actions) := by
    intro s hm hsel hpend
    rw [show handle_normal_key s { code := KeyCode.Char 'd', ctrl := b } =
        (if (selected_session s).isSome then ({ s with input_mode := InputMode.Confirming }, false)
         else (s, false)) from rfl, hsel]
    cases (selected_session st).isSome <;> simp [hpend, hm]
  unfold handle_key
  rcases hmsg : st.error_message with _ | m
  · simpa [hmsg, hmode] using hgoal st hmode rfl rfl
  · simpa [hmsg, hmode] using hgoal { st with error_message := none } hmode rfl rfl

/-- Witness for C6: in the initial state no session is selected and d
leaves the mode at Normal with no pending command. -/
theorem C6_modal_gating_witness :
    (handle_key App_new { code := KeyCode.Char 'd', ctrl := false }).1.input_mode =
      (if (selected_session App_new).isSome then InputMode.Confirming else InputMode.Normal) ∧
    (handle_key App_new { code := KeyCode.Char 'd', ctrl := false }).1.pending_actions =
      App_new.pending_actions :=
  C6_modal_gating App_new false rfl

/-- C7: in Creating mode a character key press appends the character
to the input buffer when it is alphanumeric, a hyphen or an
underscore, and otherwise leaves the entire state unchanged (the key
is silently ignored); stated per character on the ASCII fragment, on
which the embedded alphanumeric predicate coincides with the source's
Unicode one.  Independently of that fragment, the key sequence
"ab#c-1_2" fed into the empty buffer yields the buffer "abc-1_2". -/
theorem C7_name_filter (st : AppState) (hmode : st.input_mode = InputMode.Creating)
    (c : Char) (b : Bool) (_hascii : c.toNat < 128) :
    (handle_key st { code := KeyCode.Char c, ctrl := b }).1 =
      (if char_is_alphanumeric c || c = '-' || c = '_' then
        { st with input_buffer := st.input_buffer.push c }
       else st) ∧
    (feed_keys { App_new with input_mode := InputMode.Creating }
        "ab#c-1_2".toList).input_buffer = "abc-1_2" := by
  constructor
  · cases hf : char_is_alphanumeric c || c = '-' || c = '_' <;>
      simp [handle_key, hmode, handle_creating_key, hf]
  · decide

/-- Witness for C7 at a Creating-mode state and the ASCII character x:
the key press appends and nothing else changes. -/
theorem C7_name_filter_witness :
    (handle_key { App_new with input_mode := InputMode.Creating }
        { code := KeyCode.Char 'x', ctrl := false }).1 =
      (if char_is_alphanumeric 'x' || 'x' = '-' || 'x' = '_' then
        { { App_new with input_mode := InputMode.Creating } with
          input_buffer :=
            ({ App_new with input_mode := InputMode.Creating } : AppState).input_buffer.push 'x' }
       else { App_new with input_mode := InputMode.Creating }) ∧
    (feed_keys { App_new with input_mode := InputMode.Creating }
        "ab#c-1_2".toList).input_buffer = "abc-1_2" :=
  C7_name_filter { App_new with input_mode := InputMode.Creating } rfl 'x' false (by decide)

/-- C2 counterexample: with the cursor unset, a SessionsUpdated event
carrying one session leaves the cursor unset instead of moving it to
index 0; and with the cursor at index 4, a SessionsUpdated event
carrying an empty registry leaves the stale index 4 in place, at or
past the end of the new registry. -/
theorem C2_counterexample :
    ((handle_action { App_new with cursor := none }
        (Action.SessionsUpdated [sampleSession])).1.cursor = none ∧
      [sampleSession] ≠ ([] : List TmuxSession)) ∧
    ((handle_action { App_new with cursor := some 4 }
        (Action.SessionsUpdated [])).1.cursor = some 4) := by
  decide

/-- C2 amended: a SessionsUpdated event replaces the registry
wholesale; a set cursor is clamped to min of itself and the last valid
index when the new registry is non-empty, and is left unchanged when
the cursor is unset or the new registry is empty; hence a set cursor
never ends up at or past the end of a non-empty new registry (length 5
with cursor 4 replaced by length 2 yields cursor 1). -/
theorem C2_registry_clamp (st : AppState) (ss : List TmuxSession) :
    (handle_action st (Action.SessionsUpdated ss)).1.sessions = ss ∧
    (handle_action st (Action.SessionsUpdated ss)).1.cursor =
      (match st.cursor with
       | none => none
       | some i => if ss.isEmpty then some i else some (min i (ss.length - 1))) ∧
    (∀ i, st.cursor = some i → ss ≠ [] →
      ∃ j, (handle_action st (Action.SessionsUpdated ss)).1.cursor = some j ∧
        j < ss.length) := by
  have hsess : (handle_action st (Action.SessionsUpdated ss)).1.sessions = ss := by
    unfold handle_action
    rcases hc : st.cursor with _ | i
    · simp [hc]
    · simp only [hc]
      split <;> rfl
  have hcur : (handle_action st (Action.SessionsUpdated ss)).1.cursor =
      (match st.cursor with
       | none => none
       | some i => if ss.isEmpty then some i else some (min i (ss.length - 1))) := by
    unfold handle_action
    rcases hc : st.cursor with _ | i
    · simp [hc]
    · cases hemp : ss.isEmpty
      · simp only [hc, hemp]
        by_cases hge : ss.length ≤ i
        · simp only [ge_iff_le, hge, Bool.not_eq_true, hemp, not_false_eq_true, and_self, if_true,
            Bool.false_eq_true, if_false, Option.some.injEq]
          omega
        · simp only [ge_iff_le, hge, false_and, if_false, Bool.false_eq_true, Option.some.injEq]
          omega
      · simp [hc, hemp]
  refine ⟨hsess, hcur, ?_⟩
  intro i hc hne
  have hemp : ss.isEmpty = false := by
    cases h : ss.isEmpty
    · rfl
    · exact absurd (List.isEmpty_iff.mp h) hne
  have hpos : 0 < ss.length := List.length_pos.mpr hne
  refine ⟨min i (ss.length - 1), ?_, by omega⟩
  rw [hcur, hc, hemp]
  simp

/-- Witness for C2: a five-session registry with cursor 4 replaced by a
two-session registry clamps the cursor to index 1, within bounds. -/
theorem C2_registry_clamp_witness :
    (handle_action
        { App_new with sessions := List.replicate 5 sampleSession, cursor := some 4 }
        (Action.SessionsUpdated (List.replicate 2 sampleSession))).1.cursor =
      (match (some 4 : Option Nat) with
       | none => none
       | some i => if (List.replicate 2 sampleSession).isEmpty then some i
         else some (min i ((List.replicate 2 sampleSession).length - 1))) ∧
    (∃ j, (handle_action
        { App_new with sessions := List.replicate 5 sampleSession, cursor := some 4 }
        (Action.SessionsUpdated (List.replicate 2 sampleSession))).1.cursor = some j ∧
      j < (List.replicate 2 sampleSession).length) :=
  ⟨(C2_registry_clamp
      { App_new with sessions := List.replicate 5 sampleSession, cursor := some 4 }
      (List.replicate 2 sampleSession)).2.1,
   (C2_registry_clamp
      { App_new with sessions := List.replicate 5 sampleSession, cursor := some 4 }
      (List.replicate 2 sampleSession)).2.2 4 rfl (by decide)⟩

/-- C8: a failed list command whose stderr mentions the missing-server
or missing-sessions diagnostic yields the empty session list, and any
other failure yields an error carrying the stderr text. -/
theorem C8_no_server (statusOf : String → AgentStatus) (stdout stderr : String) :
    ((containsCS stderr "no server running" || containsCS stderr "no sessions") = true →
      list_sessions statusOf false stdout stderr = Except.ok []) ∧
    ((containsCS stderr "no server running" || containsCS stderr "no sessions") = false →
      list_sessions statusOf false stdout stderr =
        Except.error ("tmux list-sessions failed: " ++ stderr)) := by
  constructor <;> intro h <;> simp [list_sessions, h]

/-- Witness for C8: the real tmux diagnostic maps to an empty list and
an unrelated failure maps to an error. -/
theorem C8_no_server_witness :
    (containsCS "no server running on /private/tmp/tmux-501/default" "no server running" ||
      containsCS "no server running on /private/tmp/tmux-501/default" "no sessions") = true ∧
    list_sessions (fun _ => AgentStatus.Unknown) false ""
        "no server running on /private/tmp/tmux-501/default" = Except.ok [] ∧
    list_sessions (fun _ => AgentStatus.Unknown) false "" "server exited unexpectedly" =
      Except.error ("tmux list-sessions failed: " ++ "server exited unexpectedly") := by
  refine ⟨by decide, ?_, ?_⟩
  · exact (C8_no_server (fun _ => AgentStatus.Unknown) ""
      "no server running on /private/tmp/tmux-501/default").1 (by decide)
  · exact (C8_no_server (fun _ => AgentStatus.Unknown) ""
      "server exited unexpectedly").2 (by decide)

/-- C9: a record with fewer than four pipe-separated fields parses to
none and is dropped by the successful list call, which keeps every
parsing record; and a record with at least four fields always parses,
its numeric fields defaulting to 0 when they fail to parse. -/
theorem C9_parse_defaults (statusOf : String → AgentStatus) (line stdout stderr : String) :
    ((rustSplit '|' line).length < 4 → parse_session_line statusOf line = none) ∧
    list_sessions statusOf true stdout stderr =
      Except.ok ((rustLines stdout).filterMap (parse_session_line statusOf)) ∧
    (∀ p0 p1 p2 p3 rest, rustSplit '|' line = p0 :: p1 :: p2 :: p3 :: rest →
      parse_session_line statusOf line =
        some { id := p0, name := p1, created_at := (rustParseU64 p2).getD 0,
               attached_clients := (rustParseU64 p3).getD 0, status := statusOf p0 }) := by
  refine ⟨?_, rfl, ?_⟩
  · intro hlen
    rcases h : rustSplit '|' line with _ | ⟨p0, _ | ⟨p1, _ | ⟨p2, _ | ⟨p3, rest⟩⟩⟩⟩
    · simp [parse_session_line, h]
    · simp [parse_session_line, h]
    · simp [parse_session_line, h]
    · simp [parse_session_line, h]
    · rw [h] at hlen
      simp at hlen
      omega
  · intro p0 p1 p2 p3 rest h
    simp [parse_session_line, h]

/-- Witness for C9: a two-field record is dropped while a four-field
record with unparsable numeric fields parses with both numbers 0, and
the successful call keeps exactly the parsing records. -/
theorem C9_parse_defaults_witness :
    (rustSplit '|' "$1|w1").length < 4 ∧
    parse_session_line (fun _ => AgentStatus.Unknown) "$1|w1" = none ∧
    rustSplit '|' "$2|w2|17zz|x" = ["$2", "w2", "17zz", "x"] ∧
    rustParseU64 "17zz" = none ∧
    parse_session_line (fun _ => AgentStatus.Unknown) "$2|w2|17zz|x" =
      some { id := "$2", name := "w2", created_at := (rustParseU64 "17zz").getD 0,
             attached_clients := (rustParseU64 "x").getD 0, status := AgentStatus.Unknown } ∧
    list_sessions (fun _ => AgentStatus.Unknown) true "$1|w1\n$2|w2|17zz|x" "" =
      Except.ok ((rustLines "$1|w1\n$2|w2|17zz|x").filterMap
        (parse_session_line fun _ => AgentStatus.Unknown)) := by
  refine ⟨by decide, ?_, by decide, by decide, ?_, ?_⟩
  · exact (C9_parse_defaults (fun _ => AgentStatus.Unknown) "$1|w1" "" "").1 (by decide)
  · exact (C9_parse_defaults (fun _ => AgentStatus.Unknown) "$2|w2|17zz|x" "" "").2.2
      "$2" "w2" "17zz" "x" [] (by decide)
  · exact (C9_parse_defaults (fun _ => AgentStatus.Unknown) "" "$1|w1\n$2|w2|17zz|x" "").2.1

/-- C10: selected_session is total, returning none via checked indexing
whenever the cursor is unset, out of range, or the registry is empty,
including the initial state; and in such Normal-mode states Enter and d
enqueue nothing. -/
theorem C10_selected_safe (st : AppState) :
    (∀ i, st.cursor = some i → st.sessions.length ≤ i → selected_session st = none) ∧
    (st.sessions = [] → selected_session st = none) ∧
    selected_session App_new = none ∧
    (selected_session st = none → st.input_mode = InputMode.Normal → ∀ b : Bool,
      (handle_key st { code := KeyCode.Enter, ctrl := b }).1.pending_actions =
        st.pending_actions ∧
      (handle_key st { code := KeyCode.Char 'd', ctrl := b }).1.pending_actions =
        st.pending_actions) := by
  refine ⟨?_, ?_, rfl, ?_⟩
  · intro i hc hlen
    simpa [selected_session, hc, List.get?_eq_none] using hlen
  · intro hnil
    rcases hc : st.cursor with _ | i <;> simp [selected_session, hc, hnil]
  · intro hsel hmode b
    have hboth : ∀ s : AppState, selected_session s = none →
        s.pending_actions = st.pending_actions →
        (handle_normal_key s { code := KeyCode.Enter, ctrl := b }).1.pending_actions =
          st.pending_actions ∧
        (handle_normal_key s { code := KeyCode.Char 'd', ctrl := b }).1.pending_actions =
          st.pending_actions := by
      intro s hs hpend
      constructor
      · rw [show handle_normal_key s { code := KeyCode.Enter, ctrl := b } =
            (match selected_session s with
             | some sess => (push_action s (Action.AttachSession sess.id), false)
             | none => (s, false)) from rfl, hs]
        exact hpend
      · rw [show handle_normal_key s { code := KeyCode.Char 'd', ctrl := b } =
            (if (selected_session s).isSome then
              ({ s with input_mode := InputMode.Confirming }, false)
             else (s, false)) from rfl, hs]
        simpa using hpend
    unfold handle_key
    rcases hmsg : st.error_message with _ | m
    · simpa [hmsg, hmode] using hboth st hsel rfl
    · simpa [hmsg, hmode] using hboth { st with error_message := none } hsel rfl

/-- Witness for C10 at the initial state, whose cursor is 0 over an
empty registry. -/
theorem C10_selected_safe_witness :
    selected_session App_new = none ∧
    (handle_key App_new { code := KeyCode.Enter, ctrl := false }).1.pending_actions =
      App_new.pending_actions := by
  refine ⟨(C10_selected_safe App_new).2.2.1, ?_⟩
  exact ((C10_selected_safe App_new).2.2.2 (C10_selected_safe App_new).2.2.1 rfl false).1

/-- C1 counterexample: the snapshot whose window is the idle prompt
line "> " followed by a spinner line contains an idle marker and a busy
spinner marker, yet classifies as WaitingForInput, not Busy, because
the bare ">" prompt is also a WaitingForInput marker. -/
theorem C1_counterexample :
    re_idle_matches (lastLines 20 (rustLines "> \n⠋")) = true ∧
    re_busy_matches (lastLines 20 (rustLines "> \n⠋")) = true ∧
    analyze "> \n⠋" ≠ AgentStatus.Busy ∧
    analyze "> \n⠋" = AgentStatus.WaitingForInput := by
  decide

/-- C1 amended: for every snapshot, every class whose markers occur in
the 20-line window has priority at most that of the returned class
(Error over WaitingForInput over Busy over Idle); in particular a
snapshot containing an idle marker and a busy spinner marker together
with no Error and no WaitingForInput markers classifies as Busy, never
Idle. -/
theorem C1_priority (content : String) :
    (∀ c, classMarkers (lastLines 20 (rustLines content)) c = true →
      statusPrio c ≤ statusPrio (analyze content)) ∧
    (re_idle_matches (lastLines 20 (rustLines content)) = true →
      re_busy_matches (lastLines 20 (rustLines content)) = true →
      re_error_matches (lastLines 20 (rustLines content)) = false →
      re_waiting_input_matches (lastLines 20 (rustLines content)) = false →
      analyze content = AgentStatus.Busy) := by
  set w := lastLines 20 (rustLines content) with hw
  have hana : analyze content =
      (if re_error_matches w then AgentStatus.Error
       else if re_waiting_input_matches w then AgentStatus.WaitingForInput
       else if re_busy_matches w then AgentStatus.Busy
       else if re_idle_matches w then AgentStatus.Idle
       else AgentStatus.Unknown) := rfl
  rw [hana]
  constructor
  · intro c hc
    cases herr : re_error_matches w <;> cases hwait : re_waiting_input_matches w <;>
      cases hbusy : re_busy_matches w <;> cases hidle : re_idle_matches w <;>
      rcases c <;>
      simp_all [classMarkers, statusPrio]
  · intro hidle hbusy herr hwait
    simp [herr, hwait, hbusy]

/-- Witness for C1 at a snapshot whose window holds a bare dollar
prompt and a spinner: a busy marker is present and the result is
Busy. -/
theorem C1_priority_witness :
    statusPrio AgentStatus.Busy ≤ statusPrio (analyze "$\n⠋") ∧
    analyze "$\n⠋" = AgentStatus.Busy :=
  ⟨(C1_priority "$\n⠋").1 AgentStatus.Busy (by decide),
   (C1_priority "$\n⠋").2 (by decide) (by decide) (by decide) (by decide)⟩

/-- Membership of the last line in the 20-line window. -/
theorem getLast_mem_lastLines (ls : List String) (l : String)
    (h : ls.getLast? = some l) : l ∈ lastLines 20 ls := by
  unfold lastLines
  rw [List.mem_reverse]
  have hh : ls.reverse.head? = some l := by rw [List.head?_reverse]; exact h
  rcases hr : ls.reverse with _ | ⟨a, t⟩
  · rw [hr] at hh; simp at hh
  · rw [hr] at hh
    simp only [List.head?_cons, Option.some.injEq] at hh
    subst hh
    have ht : (a :: t).take 20 = a :: t.take 19 := rfl
    simp [ht]

/-- C3 counterexample: a snapshot whose single line ends in a question
mark immediately followed by the end of the content, with no error
markers anywhere, classifies as Unknown, not WaitingForInput — the
pattern requires a space between the question mark and the line end. -/
theorem C3_counterexample :
    "Continue?".toList.getLast? = some '?' ∧
    (rustLines "Continue?").getLast? = some "Continue?" ∧
    re_error_matches (lastLines 20 (rustLines "Continue?")) = false ∧
    analyze "Continue?" ≠ AgentStatus.WaitingForInput ∧
    analyze "Continue?" = AgentStatus.Unknown := by
  decide

/-- C3 amended: every snapshot whose last line ends in a question mark
followed by one space at the end of the content, and whose 20-line
window contains no Error markers, classifies as WaitingForInput. -/
theorem C3_question_prompt (content : String) (l : String)
    (hlast : (rustLines content).getLast? = some l)
    (hq : endsWithCS l "? " = true)
    (herr : re_error_matches (lastLines 20 (rustLines content)) = false) :
    analyze content = AgentStatus.WaitingForInput := by
  have hmem : l ∈ lastLines 20 (rustLines content) := getLast_mem_lastLines _ _ hlast
  have hwl : waitingLine l = true := by simp [waitingLine, hq]
  have hwait : re_waiting_input_matches (lastLines 20 (rustLines content)) = true := by
    unfold re_waiting_input_matches
    rw [List.any_eq_true]
    exact ⟨l, hmem, hwl⟩
  simp [analyze, analyzeLines, herr, hwait]

/-- Witness for C3 at a one-line snapshot ending in a question mark and
a space. -/
theorem C3_question_prompt_witness :
    (rustLines "Proceed with the plan? ").getLast? = some "Proceed with the plan? " ∧
    endsWithCS "Proceed with the plan? " "? " = true ∧
    re_error_matches (lastLines 20 (rustLines "Proceed with the plan? ")) = false ∧
    analyze "Proceed with the plan? " = AgentStatus.WaitingForInput :=
  ⟨by decide, by decide, by decide,
   C3_question_prompt "Proceed with the plan? " "Proceed with the plan? "
     (by decide) (by decide) (by decide)⟩

end AgentRusty
